import Mathlib

/-!
Shallow embedding of `nextbus.py`, a client for the NextBus public XML feed.

The Python module issues HTTP GET requests and reshapes parsed XML trees into
nested dictionaries.  Here the HTTP transport together with the XML parser is a
collaborator, modelled as a function from request parameters to a parsed XML
tree; every dictionary-marshalling step of the source is translated statement
by statement.  Python `dict` values are modelled as association lists with
Python's insert-or-update semantics, and Python exceptions (`KeyError`,
`IndexError`, bare `Exception`) become an explicit error type threaded through
`Except`.
-/

set_option autoImplicit false

namespace NextBus

/-- Python exceptions that the source can raise while marshalling. -/
inductive PyErr where
  | keyError (key : String)
  | indexError
  | exception (msg : String)
deriving DecidableEq, Repr

/-- A parsed XML element: kind, attribute dictionary, ordered children
(`xml.etree.ElementTree` view used by the source). -/
inductive Xml where
  | elem (tag : String) (attrib : List (String × String)) (children : List Xml)

/-- `Element.tag`. -/
def Xml.tag : Xml → String
  | .elem t _ _ => t

/-- `Element.attrib`. -/
def Xml.attrib : Xml → List (String × String)
  | .elem _ a _ => a

/-- Iterating over an element yields its children in document order. -/
def Xml.children : Xml → List Xml
  | .elem _ _ c => c

/-- Python `d.get(k)` / `k in d` style lookup on a dictionary. -/
def pyGet? {α : Type} (d : List (String × α)) (k : String) : Option α :=
  match d with
  | [] => none
  | (k0, v0) :: rest => if k0 = k then some v0 else pyGet? rest k

/-- Python `d[k] = v`: update in place if the key exists, else append. -/
def pyInsert {α : Type} (d : List (String × α)) (k : String) (v : α) :
    List (String × α) :=
  match d with
  | [] => [(k, v)]
  | (k0, v0) :: rest =>
      if k0 = k then (k, v) :: rest else (k0, v0) :: pyInsert rest k v

/-- Python `d[k]`: raises `KeyError(k)` when the key is absent. -/
def getItem {α : Type} (d : List (String × α)) (k : String) : Except PyErr α :=
  match pyGet? d k with
  | some v => Except.ok v
  | none => Except.error (PyErr.keyError k)

/-- `JAVA_TF_TO_PYTHON_TF = { 'true': True, 'false': False }`. -/
def JAVA_TF_TO_PYTHON_TF : List (String × Bool) :=
  [("true", true), ("false", false)]

/-- Request parameters: a Python dict whose values may be `None`
(e.g. `'terse': None` in `get_route_config`). -/
abbrev ReqParams : Type := List (String × Option String)

/-- The HTTP GET transport plus XML parser collaborator: given the request
parameters it yields the parsed response tree. -/
abbrev Transport : Type := ReqParams → Xml

/-- A value of the outer dictionary built by `get_agencies`: either an agency
record `{ 'title': ..., 'regionTitle': ... }` or the stray string stored under
the literal key `'shortTitle'` by line 30 of the source. -/
inductive AgencyVal where
  | record (title : String) (regionTitle : String)
  | str (s : String)
deriving DecidableEq, Repr

/-- Body of `get_agencies` after parsing (`nextbus.py` lines 20-32): the loop
over agency elements building `agency_dict`. -/
def decode_agencies (agency_tree : Xml) :
    Except PyErr (List (String × AgencyVal)) :=
  agency_tree.children.foldlM
    (fun agency_dict agency => do
      let att := agency.attrib
      let title ← getItem att "title"
      let regionTitle ← getItem att "regionTitle"
      let tag ← getItem att "tag"
      let agency_dict := pyInsert agency_dict tag (AgencyVal.record title regionTitle)
      let agency_dict :=
        match pyGet? att "shortTitle" with
        | some s => pyInsert agency_dict "shortTitle" (AgencyVal.str s)
        | none => agency_dict
      Except.ok agency_dict)
    []

/-- `get_agencies` (lines 8-32): request `command=agencyList`, then decode. -/
def get_agencies (transport : Transport) :
    Except PyErr (List (String × AgencyVal)) :=
  decode_agencies (transport [("command", some "agencyList")])

/-- The `self` fields of an `Agency` object: the agency id and the route
table cached by the constructor. -/
structure AgencyState where
  agency : String
  routes : List (String × String)
deriving DecidableEq, Repr

/-- Parameters of the `routeList` request issued by `Agency.get_routes`. -/
def route_list_params (agency : String) : ReqParams :=
  [("a", some agency), ("command", some "routeList")]

/-- Body of `Agency.get_routes` after parsing (lines 61-69): the loop over
route elements building `routes_dict`. -/
def decode_routes (routes_tree : Xml) :
    Except PyErr (List (String × String)) :=
  routes_tree.children.foldlM
    (fun routes_dict route => do
      let att := route.attrib
      let title ← getItem att "title"
      let tag ← getItem att "tag"
      Except.ok (pyInsert routes_dict tag title))
    []

/-- `Agency.__init__` (lines 40-48): stores the agency id and caches the
result of `get_routes`; on any marshalling failure no object state exists. -/
def Agency.init (agency : String) (transport : Transport) :
    Except PyErr AgencyState := do
  let routes ← decode_routes (transport (route_list_params agency))
  Except.ok { agency := agency, routes := routes }

/-- A stop record of a route configuration (`get_route_config`, lines
107-119): required `lat`/`lon`/`title`, optional `stopId`/`shortTitle`. -/
structure StopRec where
  lat : String
  lon : String
  title : String
  stopId : Option String
  shortTitle : Option String
deriving DecidableEq, Repr

/-- A direction record of a route configuration (lines 121-133): required
`title`, ordered stop-tag list, optional `name`. -/
structure DirRec where
  title : String
  stops : List String
  name : Option String
deriving DecidableEq, Repr

/-- `route_cfg_dict` (line 100): `{'stops': {}, 'directions': {}, 'paths': {}}`;
`paths` is declared but never populated by the source. -/
structure RouteCfg where
  stops : List (String × StopRec)
  directions : List (String × DirRec)
  paths : List (String × String)
deriving DecidableEq, Repr

/-- One iteration of the loop over the route element's children
(`get_route_config`, lines 104-133).  Evaluation order of the Python dict
subscripts is preserved: for a stop, `lat`, `lon`, `title`, then the
optional keys, then `att['tag']` at the assignment on line 119; for a
direction, `title`, then the child tags, then optional `name`, then
`att['tag']` at the assignment on line 133.  Other child kinds are skipped. -/
def decode_cfg_child (route_cfg_dict : RouteCfg) (c : Xml) :
    Except PyErr RouteCfg := do
  let att := c.attrib
  if c.tag = "stop" then do
    let lat ← getItem att "lat"
    let lon ← getItem att "lon"
    let title ← getItem att "title"
    let stop_data : StopRec :=
      { lat := lat, lon := lon, title := title,
        stopId := pyGet? att "stopId", shortTitle := pyGet? att "shortTitle" }
    let tag ← getItem att "tag"
    Except.ok { route_cfg_dict with
                stops := pyInsert route_cfg_dict.stops tag stop_data }
  else if c.tag = "direction" then do
    let title ← getItem att "title"
    let stops ← c.children.mapM (fun stop => getItem stop.attrib "tag")
    let direction_data : DirRec :=
      { title := title, stops := stops, name := pyGet? att "name" }
    let tag ← getItem att "tag"
    Except.ok { route_cfg_dict with
                directions := pyInsert route_cfg_dict.directions tag direction_data }
  else
    Except.ok route_cfg_dict

/-- Body of `Agency.get_route_config` after parsing (lines 99-135):
`route_cfg = route_cfg_tree[0]` (IndexError on an empty tree), then the
child loop. -/
def decode_route_config (route_cfg_tree : Xml) : Except PyErr RouteCfg := do
  let route_cfg ←
    match route_cfg_tree.children with
    | [] => Except.error PyErr.indexError
    | c :: _ => Except.ok c
  route_cfg.children.foldlM decode_cfg_child
    { stops := [], directions := [], paths := [] }

/-- Parameters of the `routeConfig` request (lines 95-97); `terse` is sent
with value `None`. -/
def route_config_params (agency : String) (route_id : String) : ReqParams :=
  [("a", some agency), ("command", some "routeConfig"),
   ("r", some route_id), ("terse", none)]

/-- Result of running one `Agency` method: the returned value or raised
exception, the requests issued to the transport collaborator, and the
object state after the call. -/
structure MethodCall (α : Type) where
  result : Except PyErr α
  requests : List ReqParams
  self : AgencyState

/-- `Agency.get_route_config` (lines 71-135): the route id is checked against
the cached route table before any request is issued; then one `routeConfig`
request is made and decoded.  No statement assigns to `self`. -/
def Agency.get_route_config (st : AgencyState) (route_id : String)
    (transport : Transport) : MethodCall RouteCfg :=
  if pyGet? st.routes route_id = none then
    { result := Except.error (PyErr.exception "The specified route is invalid."),
      requests := [], self := st }
  else
    let params := route_config_params st.agency route_id
    { result := decode_route_config (transport params),
      requests := [params], self := st }

/-- A prediction record (`p_dict`, lines 210-232). -/
structure Prediction where
  epochTime : String
  seconds : String
  minutes : String
  isDeparture : Bool
  dirTag : String
  tripTag : String
  affectedByLayover : Bool
  isScheduleBased : Bool
  isDelayed : Bool
deriving DecidableEq, Repr

/-- A message record (lines 239-241). -/
structure Message where
  priority : String
  text : String
deriving DecidableEq, Repr

/-- An element of one of the Python lists stored in `pred_line_dict`: a
prediction dict or a message dict (the `messages` list can in principle
receive message dicts after a direction titled `"messages"` replaced it,
hence the common element type). -/
inductive PredItem where
  | pred (p : Prediction)
  | msg (m : Message)
deriving DecidableEq, Repr

/-- A value of `pred_line_dict`: the (never-populated) `'directions'` dict
from line 198, or one of the Python lists (`'messages'`, and the per-title
prediction lists assigned on line 236). -/
inductive PredVal where
  | dirs (d : List (String × List PredItem))
  | items (l : List PredItem)
deriving DecidableEq, Repr

/-- The record built for one `predictions` block (`pred_line_dict`). -/
abbrev PredBlock : Type := List (String × PredVal)

/-- The optional-boolean pattern repeated on lines 222-232: the default
`False` stands unless attribute `k` is present, in which case its value is
coerced through `JAVA_TF_TO_PYTHON_TF` (`KeyError` on any string other than
`'true'`/`'false'`). -/
def coerce_opt_tf (p_att : List (String × String)) (k : String) :
    Except PyErr Bool :=
  match pyGet? p_att k with
  | some v => getItem JAVA_TF_TO_PYTHON_TF v
  | none => Except.ok false

/-- Decoding of one prediction element (lines 208-234): required attributes
in source order, `isDeparture` coerced through `JAVA_TF_TO_PYTHON_TF`, the
three optional booleans defaulted to `False` and coerced when present. -/
def decode_prediction (p : Xml) : Except PyErr Prediction := do
  let p_att := p.attrib
  let epochTime ← getItem p_att "epochTime"
  let seconds ← getItem p_att "seconds"
  let minutes ← getItem p_att "minutes"
  let isDepartureStr ← getItem p_att "isDeparture"
  let isDeparture ← getItem JAVA_TF_TO_PYTHON_TF isDepartureStr
  let dirTag ← getItem p_att "dirTag"
  let tripTag ← getItem p_att "tripTag"
  let affectedByLayover ← coerce_opt_tf p_att "affectedByLayover"
  let isScheduleBased ← coerce_opt_tf p_att "isScheduleBased"
  let isDelayed ← coerce_opt_tf p_att "isDelayed"
  Except.ok
    { epochTime := epochTime, seconds := seconds, minutes := minutes,
      isDeparture := isDeparture, dirTag := dirTag, tripTag := tripTag,
      affectedByLayover := affectedByLayover,
      isScheduleBased := isScheduleBased, isDelayed := isDelayed }

/-- One iteration of the loop over a block's children (lines 201-241).
A `direction` child decodes its own children into predictions and stores
the list under `pred_info.attrib['title']` directly in `pred_line_dict`
(line 236); a `message` child appends to the list found at key
`'messages'` (the unreachable case of finding the `'directions'` dict there
mirrors Python's `AttributeError` on `dict.append`). -/
def decode_pred_info (pred_line_dict : PredBlock) (pred_info : Xml) :
    Except PyErr PredBlock := do
  let att := pred_info.attrib
  if pred_info.tag = "direction" then do
    let pred_dir_list ← pred_info.children.mapM decode_prediction
    let title ← getItem att "title"
    Except.ok (pyInsert pred_line_dict title
      (PredVal.items (pred_dir_list.map PredItem.pred)))
  else if pred_info.tag = "message" then do
    let priority ← getItem att "priority"
    let text ← getItem att "text"
    match pyGet? pred_line_dict "messages" with
    | some (PredVal.items ms) =>
        Except.ok (pyInsert pred_line_dict "messages"
          (PredVal.items (ms ++ [PredItem.msg { priority := priority, text := text }])))
    | some (PredVal.dirs _) =>
        Except.error (PyErr.exception "AttributeError")
    | none => Except.error (PyErr.keyError "messages")
  else
    Except.ok pred_line_dict

/-- Decoding of one `predictions` block (lines 197-243): `pred_line_dict`
starts as `{'directions': {}, 'messages': []}`, the children are folded in,
and the block is later keyed by `routeTag`. -/
def decode_pred_block (predictions : Xml) : Except PyErr PredBlock :=
  predictions.children.foldlM decode_pred_info
    [("directions", PredVal.dirs []), ("messages", PredVal.items [])]

/-- Body of `Agency.get_predictions` after parsing (lines 192-243): the loop
over blocks building `predictions_dict` keyed by each block's `routeTag`
attribute (looked up on line 243, after the block is decoded). -/
def decode_predictions (predictions_tree : Xml) :
    Except PyErr (List (String × PredBlock)) :=
  predictions_tree.children.foldlM
    (fun predictions_dict predictions => do
      let pred_line_dict ← decode_pred_block predictions
      let routeTag ← getItem predictions.attrib "routeTag"
      Except.ok (pyInsert predictions_dict routeTag pred_line_dict))
    []

/-- Parameters of the `predictions` request (lines 183-188): the `routeTag`
filter is added only when `route_id` is truthy (`if route_id:` — Python's
`None` and `''` are both falsy). -/
def predictions_params (agency : String) (stop_id : String)
    (route_id : Option String) : ReqParams :=
  let req_params : ReqParams :=
    [("a", some agency), ("command", some "predictions"),
     ("stopId", some stop_id)]
  match route_id with
  | none => req_params
  | some r => if r = "" then req_params else req_params ++ [("routeTag", some r)]

/-- The value returned by `get_predictions`: the full per-route dict when no
route filter is given, or one block's record when it is (lines 245-249). -/
inductive PredResult where
  | full (d : List (String × PredBlock))
  | single (b : PredBlock)
deriving DecidableEq, Repr

/-- `Agency.get_predictions` (lines 137-249): issue one `predictions` request,
decode every block, then return the full dict when `route_id` is falsy
(`if not route_id:`) and `predictions_dict[route_id]` otherwise.  No
statement assigns to `self`. -/
def Agency.get_predictions (st : AgencyState) (stop_id : String)
    (route_id : Option String) (transport : Transport) :
    MethodCall PredResult :=
  let req_params := predictions_params st.agency stop_id route_id
  let predictions_tree := transport req_params
  let result : Except PyErr PredResult := do
    let predictions_dict ← decode_predictions predictions_tree
    match route_id with
    | none => Except.ok (PredResult.full predictions_dict)
    | some r =>
        if r = "" then Except.ok (PredResult.full predictions_dict)
        else do
          let b ← getItem predictions_dict r
          Except.ok (PredResult.single b)
  { result := result, requests := [req_params], self := st }

/-! ## Theorems -/

/-- Reduction of `Except` bind on a success value. -/
theorem bind_ok {α β : Type} (a : α) (f : α → Except PyErr β) :
    (Except.ok a >>= f) = f a := rfl

/-- Reduction of `Except` bind on a raised exception. -/
theorem bind_error {α β : Type} (e : PyErr) (f : α → Except PyErr β) :
    ((Except.error e : Except PyErr α) >>= f) = Except.error e := rfl

/-- C1: on an agency element carrying a `shortTitle` attribute, `get_agencies`
does NOT attach the short title inside the agency's own record: it stores it
under the literal top-level key `"shortTitle"`, as a sibling of the agency's
entry (source line 30), contradicting the function's own docstring. -/
theorem c1_shortTitle_stored_as_sibling_key :
    decode_agencies (Xml.elem "body" []
      [Xml.elem "agency"
        [("tag", "sf-muni"), ("title", "San Francisco Muni"),
         ("regionTitle", "California-Northern"), ("shortTitle", "SF Muni")] []]) =
    Except.ok
      [("sf-muni", AgencyVal.record "San Francisco Muni" "California-Northern"),
       ("shortTitle", AgencyVal.str "SF Muni")] := by
  rfl

/-- C2: on a predictions block with one direction child, the block record
built by `get_predictions` keeps the `directions` entry empty and stores the
direction's prediction list under the direction's title as a sibling
top-level key of the block record (source line 236), contradicting the
function's own docstring. -/
theorem c2_direction_stored_beside_directions_key :
    decode_predictions (Xml.elem "body" []
      [Xml.elem "predictions" [("routeTag", "N")]
        [Xml.elem "direction" [("title", "Inbound to Caltrain")]
          [Xml.elem "prediction"
            [("epochTime", "1500000000000"), ("seconds", "120"),
             ("minutes", "2"), ("isDeparture", "false"),
             ("dirTag", "N__IB"), ("tripTag", "7001")] []]]]) =
    Except.ok
      [("N",
        [("directions", PredVal.dirs []),
         ("messages", PredVal.items []),
         ("Inbound to Caltrain",
          PredVal.items
            [PredItem.pred
              { epochTime := "1500000000000", seconds := "120", minutes := "2",
                isDeparture := false, dirTag := "N__IB", tripTag := "7001",
                affectedByLayover := false, isScheduleBased := false,
                isDelayed := false }])])] := by
  rfl

/-- C3: calling `get_route_config` with a route id absent from the cached
route table raises the invalid-route exception, issues no request to the
transport collaborator (for every transport), and leaves the object state
unchanged. -/
theorem c3_invalid_route_no_network (st : AgencyState) (route_id : String)
    (transport : Transport) (h : pyGet? st.routes route_id = none) :
    Agency.get_route_config st route_id transport =
      { result := Except.error (PyErr.exception "The specified route is invalid."),
        requests := [], self := st } := by
  unfold Agency.get_route_config
  rw [if_pos h]

/-- Witness for C3 at a concrete state, route id and transport. -/
theorem c3_invalid_route_no_network_witness :
    Agency.get_route_config { agency := "sf-muni", routes := [("N", "N-Judah")] }
        "BOGUS" (fun _ => Xml.elem "body" [] []) =
      { result := Except.error (PyErr.exception "The specified route is invalid."),
        requests := [],
        self := { agency := "sf-muni", routes := [("N", "N-Judah")] } } :=
  c3_invalid_route_no_network _ _ _ (by decide)

/-- C4 counterexample: on a route-config response whose route element has no
children at all, `get_route_config` does not fail: it returns the empty
structure `{'stops': {}, 'directions': {}, 'paths': {}}` (this revision has
no `EmptyRouteConfigError`). -/
theorem c4_empty_route_config_counterexample :
    (Agency.get_route_config { agency := "sf-muni", routes := [("N", "N-Judah")] }
        "N"
        (fun _ => Xml.elem "body" [] [Xml.elem "route" [("tag", "N")] []])).result =
    Except.ok { stops := [], directions := [], paths := [] } := by
  rfl

/-- C4 amended: for every route-config response whose top-level route element
has no children at all, `get_route_config` (on a cached route id) returns the
empty structure `{'stops': {}, 'directions': {}, 'paths': {}}` rather than
failing. -/
theorem c4_empty_route_config_returns_empty (st : AgencyState)
    (route_id : String) (transport : Transport)
    (h : pyGet? st.routes route_id ≠ none)
    (rt : String) (attrs : List (String × String)) (rest : List Xml)
    (hresp : (transport (route_config_params st.agency route_id)).children
        = Xml.elem rt attrs [] :: rest) :
    (Agency.get_route_config st route_id transport).result =
      Except.ok { stops := [], directions := [], paths := [] } := by
  unfold Agency.get_route_config
  rw [if_neg h]
  simp only [decode_route_config, hresp]
  rfl

/-- Witness for C4's amended theorem at a concrete state and transport. -/
theorem c4_empty_route_config_returns_empty_witness :
    (Agency.get_route_config { agency := "sf-muni", routes := [("J", "Church")] }
        "J"
        (fun _ => Xml.elem "body" [] [Xml.elem "route" [("tag", "J")] []])).result =
      Except.ok { stops := [], directions := [], paths := [] } :=
  c4_empty_route_config_returns_empty _ _ _ (by decide) "route" [("tag", "J")] []
    rfl

/-- C5: when a (truthy) route id `R` is supplied and the decoded response
contains a block keyed `R`, `get_predictions` returns exactly that block's
record, not wrapped in an outer mapping; when `R` is absent from the
response it fails with the `KeyError` raised by `predictions_dict[route_id]`
(the spec's `UnknownRouteInResponseError`); when no route id is supplied the
full mapping keyed by every `routeTag` is returned. -/
theorem c5_route_filter_selection (st : AgencyState) (stop_id : String)
    (R : String) (transport : Transport)
    (d d0 : List (String × PredBlock))
    (hR : R ≠ "")
    (hsome : decode_predictions
        (transport (predictions_params st.agency stop_id (some R)))
        = Except.ok d)
    (hnone : decode_predictions
        (transport (predictions_params st.agency stop_id none))
        = Except.ok d0) :
    (∀ b, pyGet? d R = some b →
      (Agency.get_predictions st stop_id (some R) transport).result =
        Except.ok (PredResult.single b)) ∧
    (pyGet? d R = none →
      (Agency.get_predictions st stop_id (some R) transport).result =
        Except.error (PyErr.keyError R)) ∧
    (Agency.get_predictions st stop_id none transport).result =
      Except.ok (PredResult.full d0) := by
  refine ⟨?_, ?_, ?_⟩
  · intro b hb
    simp [Agency.get_predictions, hsome, hR, getItem, hb, bind_ok]
  · intro hb
    simp [Agency.get_predictions, hsome, hR, getItem, hb, bind_ok, bind_error]
  · simp [Agency.get_predictions, hnone, bind_ok]

/-- Witness for C5 at a concrete response containing two prediction blocks. -/
theorem c5_route_filter_selection_witness :
    (Agency.get_predictions { agency := "sf-muni", routes := [] } "5727"
        (some "KT")
        (fun _ => Xml.elem "body" []
          [Xml.elem "predictions" [("routeTag", "KT")] [],
           Xml.elem "predictions" [("routeTag", "M")] []])).result =
      Except.ok (PredResult.single
        [("directions", PredVal.dirs []), ("messages", PredVal.items [])]) :=
  (c5_route_filter_selection { agency := "sf-muni", routes := [] } "5727" "KT"
      (fun _ => Xml.elem "body" []
        [Xml.elem "predictions" [("routeTag", "KT")] [],
         Xml.elem "predictions" [("routeTag", "M")] []])
      [("KT", [("directions", PredVal.dirs []), ("messages", PredVal.items [])]),
       ("M", [("directions", PredVal.dirs []), ("messages", PredVal.items [])])]
      [("KT", [("directions", PredVal.dirs []), ("messages", PredVal.items [])]),
       ("M", [("directions", PredVal.dirs []), ("messages", PredVal.items [])])]
      (by decide) rfl rfl).1
    [("directions", PredVal.dirs []), ("messages", PredVal.items [])] rfl

/-- C10: supplying the empty string as `route_id` behaves exactly as omitting
it — Python's `if route_id:` treats `''` as falsy — so no `routeTag`
parameter is sent and the full per-route mapping is returned. -/
theorem c10_empty_route_id_like_none (st : AgencyState) (stop_id : String)
    (transport : Transport) :
    Agency.get_predictions st stop_id (some "") transport =
      Agency.get_predictions st stop_id none transport ∧
    (∀ v, ("routeTag", v) ∉ predictions_params st.agency stop_id (some "")) ∧
    (∀ d, decode_predictions
        (transport (predictions_params st.agency stop_id none))
        = Except.ok d →
      (Agency.get_predictions st stop_id (some "") transport).result =
        Except.ok (PredResult.full d)) := by
  refine ⟨rfl, ?_, ?_⟩
  · intro v
    simp [predictions_params]
  · intro d hd
    simp only [predictions_params] at hd
    simp [Agency.get_predictions, predictions_params, hd, bind_ok]

/-- Witness for C10 at a concrete transport. -/
theorem c10_empty_route_id_like_none_witness :
    (Agency.get_predictions { agency := "ttc", routes := [] } "1234"
        (some "")
        (fun _ => Xml.elem "body" []
          [Xml.elem "predictions" [("routeTag", "501")] []])).result =
      Except.ok (PredResult.full
        [("501", [("directions", PredVal.dirs []),
                  ("messages", PredVal.items [])])]) :=
  (c10_empty_route_id_like_none { agency := "ttc", routes := [] } "1234"
      (fun _ => Xml.elem "body" []
        [Xml.elem "predictions" [("routeTag", "501")] []])).2.2
    [("501", [("directions", PredVal.dirs []), ("messages", PredVal.items [])])]
    rfl

/-- Case analysis for the optional boolean coercion: when the attribute is
absent the default `false` stands; when present with value `'true'`/`'false'`
the decoded boolean mirrors it. -/
theorem coerce_opt_tf_ok (p_att : List (String × String)) (k : String)
    (h : ∀ v, pyGet? p_att k = some v → v = "true" ∨ v = "false") :
    ∃ bv, coerce_opt_tf p_att k = Except.ok bv ∧
      (bv = true ↔ pyGet? p_att k = some "true") := by
  unfold coerce_opt_tf
  cases ho : pyGet? p_att k with
  | none => exact ⟨false, rfl, by simp⟩
  | some v =>
    rcases h v ho with rfl | rfl
    · exact ⟨true, rfl, by simp⟩
    · exact ⟨false, rfl, by simp⟩

/-- C6: a prediction element whose `isDeparture` attribute is the string
`'true'` or `'false'` decodes to a record whose `isDeparture` field is the
boolean true/false respectively, and each of `affectedByLayover`,
`isScheduleBased`, `isDelayed` is the boolean false when the attribute is
absent and the coercion of its `'true'`/`'false'` string when present. -/
theorem c6_prediction_boolean_coercion (t : String)
    (att : List (String × String)) (ch : List Xml)
    (e s m dv dt tt : String)
    (he : pyGet? att "epochTime" = some e)
    (hs : pyGet? att "seconds" = some s)
    (hm : pyGet? att "minutes" = some m)
    (hd : pyGet? att "isDeparture" = some dv)
    (hdv : dv = "true" ∨ dv = "false")
    (hdt : pyGet? att "dirTag" = some dt)
    (htt : pyGet? att "tripTag" = some tt)
    (habl : ∀ v, pyGet? att "affectedByLayover" = some v →
      v = "true" ∨ v = "false")
    (hsb : ∀ v, pyGet? att "isScheduleBased" = some v →
      v = "true" ∨ v = "false")
    (hdl : ∀ v, pyGet? att "isDelayed" = some v →
      v = "true" ∨ v = "false") :
    ∃ r, decode_prediction (Xml.elem t att ch) = Except.ok r ∧
      (r.isDeparture = true ↔ dv = "true") ∧
      (r.affectedByLayover = true ↔
        pyGet? att "affectedByLayover" = some "true") ∧
      (r.isScheduleBased = true ↔
        pyGet? att "isScheduleBased" = some "true") ∧
      (r.isDelayed = true ↔ pyGet? att "isDelayed" = some "true") := by
  obtain ⟨ab, hab, habIff⟩ := coerce_opt_tf_ok att "affectedByLayover" habl
  obtain ⟨sb2, hsb2, hsbIff⟩ := coerce_opt_tf_ok att "isScheduleBased" hsb
  obtain ⟨dl2, hdl2, hdlIff⟩ := coerce_opt_tf_ok att "isDelayed" hdl
  rcases hdv with rfl | rfl
  · refine ⟨{ epochTime := e, seconds := s, minutes := m, isDeparture := true,
              dirTag := dt, tripTag := tt, affectedByLayover := ab,
              isScheduleBased := sb2, isDelayed := dl2 },
      ?_, by simp, habIff, hsbIff, hdlIff⟩
    simp [decode_prediction, getItem, Xml.attrib, he, hs, hm, hd, hdt, htt,
          hab, hsb2, hdl2, bind_ok, JAVA_TF_TO_PYTHON_TF, pyGet?]
  · refine ⟨{ epochTime := e, seconds := s, minutes := m, isDeparture := false,
              dirTag := dt, tripTag := tt, affectedByLayover := ab,
              isScheduleBased := sb2, isDelayed := dl2 },
      ?_, by simp, habIff, hsbIff, hdlIff⟩
    simp [decode_prediction, getItem, Xml.attrib, he, hs, hm, hd, hdt, htt,
          hab, hsb2, hdl2, bind_ok, JAVA_TF_TO_PYTHON_TF, pyGet?]

/-- Witness for C6 at a concrete prediction element: `isDeparture='true'`,
`affectedByLayover`/`isScheduleBased` absent, `isDelayed='true'`. -/
theorem c6_prediction_boolean_coercion_witness :
    ∃ r, decode_prediction (Xml.elem "prediction"
        [("epochTime", "1743000000000"), ("seconds", "95"), ("minutes", "1"),
         ("isDeparture", "true"), ("dirTag", "J__OB"), ("tripTag", "8812"),
         ("isDelayed", "true")] []) = Except.ok r ∧
      (r.isDeparture = true ↔ ("true" : String) = "true") ∧
      (r.affectedByLayover = true ↔
        pyGet? [("epochTime", "1743000000000"), ("seconds", "95"),
                ("minutes", "1"), ("isDeparture", "true"),
                ("dirTag", "J__OB"), ("tripTag", "8812"),
                ("isDelayed", "true")] "affectedByLayover" = some "true") ∧
      (r.isScheduleBased = true ↔
        pyGet? [("epochTime", "1743000000000"), ("seconds", "95"),
                ("minutes", "1"), ("isDeparture", "true"),
                ("dirTag", "J__OB"), ("tripTag", "8812"),
                ("isDelayed", "true")] "isScheduleBased" = some "true") ∧
      (r.isDelayed = true ↔
        pyGet? [("epochTime", "1743000000000"), ("seconds", "95"),
                ("minutes", "1"), ("isDeparture", "true"),
                ("dirTag", "J__OB"), ("tripTag", "8812"),
                ("isDelayed", "true")] "isDelayed" = some "true") :=
  c6_prediction_boolean_coercion "prediction"
    [("epochTime", "1743000000000"), ("seconds", "95"), ("minutes", "1"),
     ("isDeparture", "true"), ("dirTag", "J__OB"), ("tripTag", "8812"),
     ("isDelayed", "true")] []
    "1743000000000" "95" "1" "true" "J__OB" "8812"
    (by decide) (by decide) (by decide) (by decide) (Or.inl rfl)
    (by decide) (by decide)
    (fun v hv => nomatch hv) (fun v hv => nomatch hv)
    (fun v hv => by injection hv with h; exact Or.inl h.symm)

/-- A key just written by `pyInsert` is found by `pyGet?`, with the written
value. -/
theorem pyGet?_pyInsert_self {α : Type} (d : List (String × α)) (k : String)
    (v : α) : pyGet? (pyInsert d k v) k = some v := by
  induction d with
  | nil => simp [pyInsert, pyGet?]
  | cons p rest ih =>
    obtain ⟨k0, v0⟩ := p
    by_cases h : k0 = k
    · simp [pyInsert, pyGet?, h]
    · simp [pyInsert, pyGet?, h, ih]

/-- When every child carries a `tag` attribute, collecting the tags through
`getItem` succeeds and yields exactly the attribute values in document
order. -/
theorem mapM_tag_ok (ch : List Xml)
    (h : ∀ x ∈ ch, (pyGet? x.attrib "tag").isSome) :
    ch.mapM (fun stop => getItem stop.attrib "tag") =
      Except.ok (ch.filterMap (fun x => pyGet? x.attrib "tag")) := by
  induction ch with
  | nil => rfl
  | cons x xs ih =>
    obtain ⟨v, hv⟩ := Option.isSome_iff_exists.mp (h x (by simp))
    have hxs := ih (fun y hy => h y (by simp [hy]))
    have hfx : getItem x.attrib "tag" = Except.ok v := by simp [getItem, hv]
    rw [List.mapM_cons]
    simp only [hfx, hxs, bind_ok]
    simp [List.filterMap_cons, hv]
    rfl

/-- C7: for a schema-conformant direction element (all children are stop
elements, each carrying a `tag` attribute), the direction record built by
`get_route_config` has as its stop sequence exactly the `tag` attributes of
the child stop elements, in document order. -/
theorem c7_direction_stop_order (acc : RouteCfg)
    (att : List (String × String)) (ch : List Xml) (dt dtitle : String)
    (hstop : ∀ x ∈ ch, x.tag = "stop")
    (htagAll : ∀ x ∈ ch, (pyGet? x.attrib "tag").isSome)
    (htitle : pyGet? att "title" = some dtitle)
    (htag : pyGet? att "tag" = some dt) :
    ∃ acc2, decode_cfg_child acc (Xml.elem "direction" att ch) = Except.ok acc2 ∧
      ∃ drec, pyGet? acc2.directions dt = some drec ∧
        drec.stops = (ch.filter (fun x => x.tag = "stop")).filterMap
          (fun x => pyGet? x.attrib "tag") := by
  have hfilter : ch.filter (fun x => decide (x.tag = "stop")) = ch :=
    List.filter_eq_self.mpr (fun x hx => by simp [hstop x hx])
  refine ⟨{ acc with
              directions :=
                pyInsert acc.directions dt
                  { title := dtitle,
                    stops := ch.filterMap (fun x => pyGet? x.attrib "tag"),
                    name := pyGet? att "name" } },
          ?_, ?_⟩
  · have hattr : (Xml.elem "direction" att ch).attrib = att := rfl
    have htg : (Xml.elem "direction" att ch).tag = "direction" := rfl
    have hch : (Xml.elem "direction" att ch).children = ch := rfl
    have h1 : getItem att "title" = Except.ok dtitle := by simp [getItem, htitle]
    have h2 : getItem att "tag" = Except.ok dt := by simp [getItem, htag]
    have hmap := mapM_tag_ok ch htagAll
    simp only [decode_cfg_child, hattr, htg, hch]
    rw [if_neg (by decide)]
    simp only [if_true, h1, h2, hmap, bind_ok]
  · refine ⟨_, pyGet?_pyInsert_self _ _ _, ?_⟩
    simp [hfilter]

/-- Witness for C7 at a concrete direction element with two stops. -/
theorem c7_direction_stop_order_witness :
    ∃ acc2, decode_cfg_child { stops := [], directions := [], paths := [] }
        (Xml.elem "direction" [("tag", "N__IB"), ("title", "Inbound")]
          [Xml.elem "stop" [("tag", "5001")] [],
           Xml.elem "stop" [("tag", "5002")] []]) = Except.ok acc2 ∧
      ∃ drec, pyGet? acc2.directions "N__IB" = some drec ∧
        drec.stops = (([Xml.elem "stop" [("tag", "5001")] [],
                        Xml.elem "stop" [("tag", "5002")] []]).filter
            (fun x => x.tag = "stop")).filterMap
          (fun x => pyGet? x.attrib "tag") :=
  c7_direction_stop_order { stops := [], directions := [], paths := [] }
    [("tag", "N__IB"), ("title", "Inbound")]
    [Xml.elem "stop" [("tag", "5001")] [], Xml.elem "stop" [("tag", "5002")] []]
    "N__IB" "Inbound"
    (by decide) (by decide) (by decide) (by decide)

/-- `pure` on `Except` is `Except.ok`. -/
theorem pure_eq_ok {α : Type} (a : α) :
    (pure a : Except PyErr α) = Except.ok a := rfl

/-- A failing `getItem` raises precisely the `KeyError` of the looked-up
key. -/
theorem getItem_error {α : Type} (d : List (String × α)) (k : String)
    (e : PyErr) (h : getItem d k = Except.error e) : e = PyErr.keyError k := by
  unfold getItem at h
  cases ho : pyGet? d k <;> rw [ho] at h <;> simp_all

/-- Case split for a failing `Except` bind: either the first action failed
with that error, or it succeeded and the continuation failed. -/
theorem bind_eq_error {α β : Type} (x : Except PyErr α)
    (f : α → Except PyErr β) (e : PyErr) (h : (x >>= f) = Except.error e) :
    x = Except.error e ∨ ∃ a, x = Except.ok a ∧ f a = Except.error e := by
  cases x with
  | error e2 =>
    left
    rw [bind_error] at h
    injection h with h2
    rw [h2]
  | ok a => right; exact ⟨a, rfl, h⟩

/-- A failing tag collection over direction children raises a `KeyError`. -/
theorem mapM_tag_error (ch : List Xml) (e : PyErr)
    (h : ch.mapM (fun stop => getItem stop.attrib "tag") = Except.error e) :
    ∃ k, e = PyErr.keyError k := by
  induction ch with
  | nil => rw [List.mapM_nil, pure_eq_ok] at h; simp at h
  | cons x xs ih =>
    rw [List.mapM_cons] at h
    rcases bind_eq_error _ _ _ h with h1 | ⟨v, _, h1⟩
    · exact ⟨"tag", getItem_error _ _ _ h1⟩
    rcases bind_eq_error _ _ _ h1 with h2 | ⟨vs, _, h2⟩
    · exact ih h2
    · rw [pure_eq_ok] at h2; simp at h2

/-- Every failure of the route-config child loop is a `KeyError` (a missing
required attribute): the source raises nothing else there. -/
theorem decode_cfg_child_error_keyError (acc : RouteCfg) (c : Xml) (e : PyErr)
    (h : decode_cfg_child acc c = Except.error e) :
    ∃ k, e = PyErr.keyError k := by
  unfold decode_cfg_child at h
  by_cases hst : c.tag = "stop"
  · rw [if_pos hst] at h
    rcases bind_eq_error _ _ _ h with h1 | ⟨lat, _, h1⟩
    · exact ⟨"lat", getItem_error _ _ _ h1⟩
    rcases bind_eq_error _ _ _ h1 with h2 | ⟨lon, _, h2⟩
    · exact ⟨"lon", getItem_error _ _ _ h2⟩
    rcases bind_eq_error _ _ _ h2 with h3 | ⟨title, _, h3⟩
    · exact ⟨"title", getItem_error _ _ _ h3⟩
    rcases bind_eq_error _ _ _ h3 with h4 | ⟨tagv, _, h4⟩
    · exact ⟨"tag", getItem_error _ _ _ h4⟩
    · simp at h4
  · rw [if_neg hst] at h
    by_cases hdir : c.tag = "direction"
    · rw [if_pos hdir] at h
      rcases bind_eq_error _ _ _ h with h1 | ⟨title, _, h1⟩
      · exact ⟨"title", getItem_error _ _ _ h1⟩
      rcases bind_eq_error _ _ _ h1 with h2 | ⟨stops, _, h2⟩
      · exact mapM_tag_error _ _ h2
      rcases bind_eq_error _ _ _ h2 with h3 | ⟨tagv, _, h3⟩
      · exact ⟨"tag", getItem_error _ _ _ h3⟩
      · simp at h3
    · rw [if_neg hdir] at h
      simp at h

/-- If some child of the route element always fails with a `KeyError`, the
whole child loop fails with a `KeyError`. -/
theorem foldlM_cfg_error (l : List Xml) (c : Xml)
    (hcerr : ∀ a, ∃ k, decode_cfg_child a c =
      Except.error (PyErr.keyError k)) :
    ∀ acc, c ∈ l →
      ∃ k, l.foldlM decode_cfg_child acc =
        Except.error (PyErr.keyError k) := by
  induction l with
  | nil => intro acc hc; cases hc
  | cons x xs ih =>
    intro acc hc
    rw [List.foldlM_cons]
    cases hx : decode_cfg_child acc x with
    | error e =>
      obtain ⟨k, rfl⟩ := decode_cfg_child_error_keyError acc x e hx
      exact ⟨k, rfl⟩
    | ok a2 =>
      rcases List.mem_cons.mp hc with rfl | hmem
      · obtain ⟨k, hk⟩ := hcerr acc
        rw [hx] at hk
        simp at hk
      · obtain ⟨k, hk⟩ := ih a2 hmem
        exact ⟨k, hk⟩

/-- A stop element missing one of the required attributes `lat`, `lon`,
`title` makes the child loop step fail with the corresponding `KeyError`. -/
theorem decode_cfg_stop_missing_required (acc : RouteCfg)
    (att : List (String × String)) (ch : List Xml)
    (hmiss : pyGet? att "lat" = none ∨ pyGet? att "lon" = none ∨
      pyGet? att "title" = none) :
    ∃ k, decode_cfg_child acc (Xml.elem "stop" att ch) =
      Except.error (PyErr.keyError k) := by
  have hattr : (Xml.elem "stop" att ch).attrib = att := rfl
  simp only [decode_cfg_child, hattr, Xml.tag, if_true]
  cases hlat : pyGet? att "lat" with
  | none => exact ⟨"lat", by simp [getItem, hlat, bind_error]⟩
  | some lat =>
    cases hlon : pyGet? att "lon" with
    | none => exact ⟨"lon", by simp [getItem, hlat, hlon, bind_ok, bind_error]⟩
    | some lon =>
      cases htitle2 : pyGet? att "title" with
      | none =>
        exact ⟨"title",
          by simp [getItem, hlat, hlon, htitle2, bind_ok, bind_error]⟩
      | some title => rcases hmiss with h | h | h <;> simp_all

/-- C8: a route-config response containing a stop element that misses one of
the required attributes `lat`, `lon`, `title` makes `get_route_config` fail
with a `KeyError` (the spec's `MalformedResponseError`); and for a stop
element with the required attributes present, the stop record carries
`stopId` and `shortTitle` exactly when those attributes are present. -/
theorem c8_stop_required_and_optional (tree route : Xml) (rest : List Xml)
    (att : List (String × String)) (ch : List Xml)
    (acc : RouteCfg) (att2 : List (String × String)) (ch2 : List Xml)
    (lat lon title tagv : String)
    (htree : tree.children = route :: rest)
    (hmem : Xml.elem "stop" att ch ∈ route.children)
    (hmiss : pyGet? att "lat" = none ∨ pyGet? att "lon" = none ∨
      pyGet? att "title" = none)
    (hlat : pyGet? att2 "lat" = some lat)
    (hlon : pyGet? att2 "lon" = some lon)
    (htitle : pyGet? att2 "title" = some title)
    (htag : pyGet? att2 "tag" = some tagv) :
    (∃ k, decode_route_config tree = Except.error (PyErr.keyError k)) ∧
    (∃ acc2, decode_cfg_child acc (Xml.elem "stop" att2 ch2) = Except.ok acc2 ∧
      pyGet? acc2.stops tagv = some
        { lat := lat, lon := lon, title := title,
          stopId := pyGet? att2 "stopId",
          shortTitle := pyGet? att2 "shortTitle" }) := by
  constructor
  · have hcerr : ∀ a, ∃ k, decode_cfg_child a (Xml.elem "stop" att ch) =
        Except.error (PyErr.keyError k) :=
      fun a => decode_cfg_stop_missing_required a att ch hmiss
    obtain ⟨k, hk⟩ := foldlM_cfg_error route.children _ hcerr
      { stops := [], directions := [], paths := [] } hmem
    refine ⟨k, ?_⟩
    unfold decode_route_config
    rw [htree]
    exact hk
  · have hattr : (Xml.elem "stop" att2 ch2).attrib = att2 := rfl
    have h1 : getItem att2 "lat" = Except.ok lat := by simp [getItem, hlat]
    have h2 : getItem att2 "lon" = Except.ok lon := by simp [getItem, hlon]
    have h3 : getItem att2 "title" = Except.ok title := by
      simp [getItem, htitle]
    have h4 : getItem att2 "tag" = Except.ok tagv := by simp [getItem, htag]
    refine ⟨{ acc with
                stops :=
                  pyInsert acc.stops tagv
                    { lat := lat, lon := lon, title := title,
                      stopId := pyGet? att2 "stopId",
                      shortTitle := pyGet? att2 "shortTitle" } },
            ?_, pyGet?_pyInsert_self _ _ _⟩
    simp only [decode_cfg_child, hattr, Xml.tag, if_true, h1, h2, h3, h4,
               bind_ok]

/-- Witness for C8: a response whose only stop misses `lat` (first part) and
a fully attributed stop element with `stopId` present, `shortTitle` absent
(second part). -/
theorem c8_stop_required_and_optional_witness :
    (∃ k, decode_route_config (Xml.elem "body" []
        [Xml.elem "route" [("tag", "F")]
          [Xml.elem "stop"
            [("tag", "3251"), ("lon", "-122.39"), ("title", "Ferry Plaza")]
            []]]) = Except.error (PyErr.keyError k)) ∧
    (∃ acc2, decode_cfg_child { stops := [], directions := [], paths := [] }
        (Xml.elem "stop"
          [("tag", "7777"), ("lat", "37.77"), ("lon", "-122.41"),
           ("title", "Van Ness"), ("stopId", "17777")] []) =
          Except.ok acc2 ∧
      pyGet? acc2.stops "7777" = some
        { lat := "37.77", lon := "-122.41", title := "Van Ness",
          stopId := some "17777", shortTitle := none }) :=
  c8_stop_required_and_optional
    (Xml.elem "body" []
      [Xml.elem "route" [("tag", "F")]
        [Xml.elem "stop"
          [("tag", "3251"), ("lon", "-122.39"), ("title", "Ferry Plaza")] []]])
    (Xml.elem "route" [("tag", "F")]
      [Xml.elem "stop"
        [("tag", "3251"), ("lon", "-122.39"), ("title", "Ferry Plaza")] []])
    []
    [("tag", "3251"), ("lon", "-122.39"), ("title", "Ferry Plaza")] []
    { stops := [], directions := [], paths := [] }
    [("tag", "7777"), ("lat", "37.77"), ("lon", "-122.41"),
     ("title", "Van Ness"), ("stopId", "17777")] []
    "37.77" "-122.41" "Van Ness" "7777"
    rfl (List.mem_singleton.mpr rfl) (Or.inl (by decide))
    (by decide) (by decide) (by decide) (by decide)

/-- C9: neither `get_route_config` nor `get_predictions` changes the object
state (`self.agency`, `self.routes`), whether they succeed or fail; the
route table is assigned only by the constructor, from a successful full
`routeList` fetch. -/
theorem c9_methods_preserve_state (st : AgencyState)
    (route_id stop_id : String) (orid : Option String)
    (tr1 tr2 tr3 : Transport) (a : String) (st2 : AgencyState)
    (hinit : Agency.init a tr3 = Except.ok st2) :
    (Agency.get_route_config st route_id tr1).self = st ∧
    (Agency.get_predictions st stop_id orid tr2).self = st ∧
    st2.agency = a ∧
    Except.ok st2.routes = decode_routes (tr3 (route_list_params a)) := by
  refine ⟨?_, rfl, ?_⟩
  · unfold Agency.get_route_config
    split <;> rfl
  · unfold Agency.init at hinit
    cases hro : decode_routes (tr3 (route_list_params a)) with
    | error e =>
      rw [hro, bind_error] at hinit
      simp at hinit
    | ok r =>
      rw [hro, bind_ok] at hinit
      injection hinit with h
      constructor
      · rw [← h]
      · rw [← h]

/-- Witness for C9 at a concrete agency, transports and resulting state. -/
theorem c9_methods_preserve_state_witness :
    (Agency.get_route_config
        { agency := "actransit", routes := [("51A", "51A East")] } "51A"
        (fun _ => Xml.elem "body" [] [])).self =
      { agency := "actransit", routes := [("51A", "51A East")] } ∧
    (Agency.get_predictions
        { agency := "actransit", routes := [("51A", "51A East")] } "55555"
        none (fun _ => Xml.elem "body" [] [])).self =
      { agency := "actransit", routes := [("51A", "51A East")] } ∧
    ({ agency := "actransit", routes := [("51A", "51A East")] } :
        AgencyState).agency = "actransit" ∧
    Except.ok ({ agency := "actransit", routes := [("51A", "51A East")] } :
        AgencyState).routes =
      decode_routes ((fun _ => Xml.elem "body" []
          [Xml.elem "route" [("tag", "51A"), ("title", "51A East")] []] :
            Transport)
        (route_list_params "actransit")) :=
  c9_methods_preserve_state
    { agency := "actransit", routes := [("51A", "51A East")] } "51A" "55555"
    none (fun _ => Xml.elem "body" [] []) (fun _ => Xml.elem "body" [] [])
    (fun _ => Xml.elem "body" []
      [Xml.elem "route" [("tag", "51A"), ("title", "51A East")] []])
    "actransit"
    { agency := "actransit", routes := [("51A", "51A East")] } rfl

end NextBus
